import Mathlib

set_option maxRecDepth 8000

/-!
Verification of the static data recorded in `configargs.h` of the GCC 14.2.0
toolchain installation for `armv7-alpine-linux-musleabihf`.

The header declares three constants:
  * `static const char configuration_arguments[]` : the recorded configure
    command line;
  * `static const char thread_model[]` : the threading model name;
  * `static const struct { const char *name, *value; } configure_default_options[]` :
    eight (name, value) default-option pairs.

A C declaration `static const char x[] = "lit"` produces an array holding the
characters of the literal followed by the NUL terminator; `cString` embeds
this.  The option table is embedded as a list of `ConfigOption` records.
-/

/-- A C character array initialised from a string literal: the characters of
the literal followed by the NUL terminator. -/
def cString (s : String) : List Char := s.data ++ [Char.ofNat 0]

/-- The string literal initialising `configuration_arguments` in the source
(apostrophes written as the escape \x5cx27). -/
def configuration_arguments_lit : String := "/home/buildozer/aports/main/gcc/src/gcc-14.2.0/configure --prefix=/usr --mandir=/usr/share/man --infodir=/usr/share/info --build=armv7-alpine-linux-musleabihf --host=armv7-alpine-linux-musleabihf --target=armv7-alpine-linux-musleabihf --enable-checking=release --disable-cet --disable-fixed-point --disable-libstdcxx-pch --disable-multilib --disable-nls --disable-werror --disable-symvers --enable-__cxa_atexit --enable-default-pie --enable-default-ssp --enable-languages=c,c++,objc,go,fortran,ada --enable-link-serialization=2 --enable-linker-build-id --with-arch=armv7-a --with-tune=generic-armv7-a --with-fpu=vfpv3-d16 --with-float=hard --with-abi=aapcs-linux --with-mode=thumb --disable-libquadmath --disable-libssp --disable-libsanitizer --enable-shared --enable-threads --enable-tls --disable-libitm --with-bugurl=https://gitlab.alpinelinux.org/alpine/aports/-/issues --with-system-zlib --with-linker-hash-style=gnu --with-pkgversion=\x27Alpine 14.2.0\x27"

/-- `static const char configuration_arguments[]` from the source. -/
def configuration_arguments : List Char := cString configuration_arguments_lit

/-- The string literal initialising `thread_model` in the source. -/
def thread_model_lit : String := "posix"

/-- `static const char thread_model[]` from the source. -/
def thread_model : List Char := cString thread_model_lit

/-- One entry of `configure_default_options`: `const char *name, *value`. -/
structure ConfigOption where
  name : String
  value : String
deriving DecidableEq, Repr

/-- `configure_default_options` from the source, in source order. -/
def configure_default_options : List ConfigOption :=
  [⟨"abi", "aapcs-linux"⟩, ⟨"cpu", "arm10e"⟩, ⟨"arch", "armv7-a"⟩,
   ⟨"tune", "generic-armv7-a"⟩, ⟨"float", "hard"⟩, ⟨"mode", "thumb"⟩,
   ⟨"fpu", "vfpv3-d16"⟩, ⟨"tls", "gnu"⟩]

/-- Split a character list into the space-separated words, carrying the
(reversed) current word as an accumulator. -/
def splitOnSpace : List Char → List Char → List (List Char)
  | [], acc => [acc.reverse]
  | c :: cs, acc =>
    if c = ' ' then acc.reverse :: splitOnSpace cs []
    else splitOnSpace cs (c :: acc)

/-- If the first list is a prefix of the second, return the remainder. -/
def stripPrefixChars : List Char → List Char → Option (List Char)
  | [], l => some l
  | _ :: _, [] => none
  | p :: ps, c :: cs => if p = c then stripPrefixChars ps cs else none

/-- The value of the first space-separated word of `args` starting with
`flag`, with `flag` stripped (e.g. `flagValueChars "--build=" args`). -/
def flagValueChars (flag : String) (args : List Char) : Option (List Char) :=
  (splitOnSpace args []).findSome? (fun w => stripPrefixChars flag.data w)

/-- Look an option name up in `configure_default_options` (first match). -/
def lookupOption (n : String) : Option String :=
  (configure_default_options.find? (fun o => o.name == n)).map (fun o => o.value)

/-- Modelled from the spec: the spec only says the thread model is "one of a
small fixed set of toolchain-defined model names"; the set itself is not in
the source, so it is taken to be GCC thread-model (gthr) names. -/
def toolchain_thread_models : List String :=
  ["aix", "dce", "lynx", "mipssde", "posix", "rtems", "single", "tpf",
   "vxworks", "win32"]

/-- Claim C1: `configure_default_options` contains exactly eight (name, value)
entries, in order (abi, aapcs-linux), (cpu, arm10e), (arch, armv7-a),
(tune, generic-armv7-a), (float, hard), (mode, thumb), (fpu, vfpv3-d16),
(tls, gnu), and no others. -/
theorem C1_options_table_exact :
    configure_default_options =
      [⟨"abi", "aapcs-linux"⟩, ⟨"cpu", "arm10e"⟩, ⟨"arch", "armv7-a"⟩,
       ⟨"tune", "generic-armv7-a"⟩, ⟨"float", "hard"⟩, ⟨"mode", "thumb"⟩,
       ⟨"fpu", "vfpv3-d16"⟩, ⟨"tls", "gnu"⟩] ∧
    configure_default_options.length = 8 :=
  ⟨rfl, rfl⟩

/-- Claim C2: `configuration_arguments` is exactly the recorded configure
command line, and it contains the target triple
`armv7-alpine-linux-musleabihf` and the flag `--with-fpu=vfpv3-d16`. -/
theorem C2_configuration_arguments_recorded :
    configuration_arguments = cString "/home/buildozer/aports/main/gcc/src/gcc-14.2.0/configure --prefix=/usr --mandir=/usr/share/man --infodir=/usr/share/info --build=armv7-alpine-linux-musleabihf --host=armv7-alpine-linux-musleabihf --target=armv7-alpine-linux-musleabihf --enable-checking=release --disable-cet --disable-fixed-point --disable-libstdcxx-pch --disable-multilib --disable-nls --disable-werror --disable-symvers --enable-__cxa_atexit --enable-default-pie --enable-default-ssp --enable-languages=c,c++,objc,go,fortran,ada --enable-link-serialization=2 --enable-linker-build-id --with-arch=armv7-a --with-tune=generic-armv7-a --with-fpu=vfpv3-d16 --with-float=hard --with-abi=aapcs-linux --with-mode=thumb --disable-libquadmath --disable-libssp --disable-libsanitizer --enable-shared --enable-threads --enable-tls --disable-libitm --with-bugurl=https://gitlab.alpinelinux.org/alpine/aports/-/issues --with-system-zlib --with-linker-hash-style=gnu --with-pkgversion=\x27Alpine 14.2.0\x27" ∧
    "armv7-alpine-linux-musleabihf".data <:+: configuration_arguments ∧
    "--with-fpu=vfpv3-d16".data <:+: configuration_arguments :=
  ⟨rfl,
   ⟨configuration_arguments_lit.data.take 129,
    configuration_arguments_lit.data.drop 158 ++ [Char.ofNat 0], by rfl⟩,
   ⟨configuration_arguments_lit.data.take 601,
    configuration_arguments_lit.data.drop 621 ++ [Char.ofNat 0], by rfl⟩⟩

/-- Claim C3: `thread_model` equals "posix", a member of the fixed set of
toolchain-defined thread-model names. -/
theorem C3_thread_model_posix :
    thread_model = cString "posix" ∧ thread_model_lit ∈ toolchain_thread_models :=
  ⟨rfl, by decide⟩

/-- Claim C4 (counterexample): the recorded `--build`, `--host` and `--target`
triples are all the same triple (`armv7-alpine-linux-musleabihf`), refuting
the claim that they are not all the same (i.e. this is a native build record,
not a cross one). -/
theorem C4_counterexample_native_build :
    flagValueChars "--build=" configuration_arguments
        = flagValueChars "--host=" configuration_arguments ∧
    flagValueChars "--host=" configuration_arguments
        = flagValueChars "--target=" configuration_arguments ∧
    flagValueChars "--target=" configuration_arguments
        = some ("armv7-alpine-linux-musleabihf".data) :=
  ⟨rfl, rfl, rfl⟩

/-- Claim C4 (amended): the header records a GCC toolchain build whose
`--build`, `--host` and `--target` triples all equal
`armv7-alpine-linux-musleabihf` (a native build for that triple); in
particular the recorded target is `armv7-alpine-linux-musleabihf`. -/
theorem C4_recorded_build_host_target :
    flagValueChars "--build=" configuration_arguments
        = some ("armv7-alpine-linux-musleabihf".data) ∧
    flagValueChars "--host=" configuration_arguments
        = some ("armv7-alpine-linux-musleabihf".data) ∧
    flagValueChars "--target=" configuration_arguments
        = some ("armv7-alpine-linux-musleabihf".data) :=
  ⟨rfl, rfl, rfl⟩

/-- Claim C5: both character arrays end in the NUL character, and NUL occurs
nowhere before the final element, so reads terminate at a definite end. -/
theorem C5_null_terminated :
    configuration_arguments.getLast? = some (Char.ofNat 0) ∧
    thread_model.getLast? = some (Char.ofNat 0) ∧
    configuration_arguments.dropLast.all (fun c => c != Char.ofNat 0) = true ∧
    thread_model.dropLast.all (fun c => c != Char.ofNat 0) = true :=
  ⟨by decide, by decide, by decide, by decide⟩

/-- Claim C6: the key set of `configure_default_options` is exactly the fixed
identifiers abi, cpu, arch, tune, float, mode, fpu, tls, and the table length
is the fixed constant 8. -/
theorem C6_fixed_keys_and_length :
    configure_default_options.map ConfigOption.name
        = ["abi", "cpu", "arch", "tune", "float", "mode", "fpu", "tls"] ∧
    configure_default_options.length = 8 :=
  ⟨rfl, rfl⟩

/-- Claim C7: every in-bounds read of the three constants succeeds: the
optional accessor returns `some`. -/
theorem C7_in_bounds_reads_succeed (i j k : Nat)
    (hi : i < configuration_arguments.length)
    (hj : j < thread_model.length)
    (hk : k < configure_default_options.length) :
    (configuration_arguments[i]?).isSome = true ∧
    (thread_model[j]?).isSome = true ∧
    (configure_default_options[k]?).isSome = true := by
  simp [List.getElem?_eq_getElem, hi, hj, hk]

/-- Witness for C7 at i = j = k = 0. -/
theorem C7_in_bounds_reads_succeed_witness :
    (configuration_arguments[0]?).isSome = true ∧
    (thread_model[0]?).isSome = true ∧
    (configure_default_options[0]?).isSome = true :=
  C7_in_bounds_reads_succeed 0 0 0 (by decide) (by decide) (by decide)

/-- Claim C9: the eight option names are pairwise distinct, so the table is a
well-defined map from name to value. -/
theorem C9_option_names_distinct :
    (configure_default_options.map ConfigOption.name).Nodup := by decide

/-- Claim C10: for each of abi, arch, tune, float, mode, fpu the table value
equals the value of the corresponding `--with-<name>=` flag recorded in
`configuration_arguments`, while the cpu entry (arm10e) has no corresponding
`--with-cpu=` flag there. -/
theorem C10_defaults_match_configure_flags :
    flagValueChars "--with-abi=" configuration_arguments
        = (lookupOption "abi").map String.data ∧
    flagValueChars "--with-arch=" configuration_arguments
        = (lookupOption "arch").map String.data ∧
    flagValueChars "--with-tune=" configuration_arguments
        = (lookupOption "tune").map String.data ∧
    flagValueChars "--with-float=" configuration_arguments
        = (lookupOption "float").map String.data ∧
    flagValueChars "--with-mode=" configuration_arguments
        = (lookupOption "mode").map String.data ∧
    flagValueChars "--with-fpu=" configuration_arguments
        = (lookupOption "fpu").map String.data ∧
    lookupOption "cpu" = some "arm10e" ∧
    flagValueChars "--with-cpu=" configuration_arguments = none :=
  ⟨rfl, rfl, rfl, rfl, rfl, rfl, rfl, rfl⟩
